import Mathlib

/-!
Verification development for the octoprint-tui dashboard.

The Rust source (src/main.rs, src/octoprint.rs, src/ui.rs) is shallowly
embedded below.  Machine floats (f64) are modelled as rationals (ℚ): every
numeric input used in a concrete theorem here is one on which the f64
computation and the ℚ computation agree (checked case by case, noting the
nearest-double value where relevant).  Strings are Lean Strings, Rust
Option is Lean Option, and fallible operations return Except.
-/

namespace OctoprintTui

/-! ## Data model (src/octoprint.rs) -/

/-- octoprint.rs Origin: file origin of a job. -/
inductive Origin where
  | Local
  | SdCard
deriving DecidableEq

/-- octoprint.rs References. -/
structure References where
  resource : String
  download : Option String
  model : Option String
deriving DecidableEq

/-- octoprint.rs FileAbridged. -/
structure FileAbridged where
  name : Option String
  display : Option String
  path : Option String
  origin : Option Origin
  references : Option References
deriving DecidableEq

/-- octoprint.rs Filament. -/
structure Filament where
  length : Option ℚ
  volume : Option ℚ
deriving DecidableEq

/-- octoprint.rs Job (fields estimatedPrintTime / lastPrintTime renamed in JSON). -/
structure Job where
  file : FileAbridged
  estimated_print_time : Option ℚ
  last_print_time : Option ℚ
  filament : Option Filament
deriving DecidableEq

/-- octoprint.rs Progress. -/
structure Progress where
  completion : Option ℚ
  filepos : Option ℚ
  print_time : Option ℚ
  print_time_left : Option ℚ
deriving DecidableEq

/-- octoprint.rs TemperatureData: actual and target are required (not Option). -/
structure TemperatureData where
  actual : ℚ
  target : ℚ
  offset : Option ℚ
deriving DecidableEq

/-- octoprint.rs HistoricTemperatureData: time is a required u64. -/
structure HistoricTemperatureData where
  time : ℕ
  tool0 : Option TemperatureData
  tool1 : Option TemperatureData
  tool2 : Option TemperatureData
  bed : Option TemperatureData
deriving DecidableEq

/-- octoprint.rs TemperatureState. -/
structure TemperatureState where
  tool0 : Option TemperatureData
  tool1 : Option TemperatureData
  tool2 : Option TemperatureData
  bed : Option TemperatureData
  history : Option (List HistoricTemperatureData)
deriving DecidableEq

/-- octoprint.rs SdState: ready is a required bool. -/
structure SdState where
  ready : Bool
deriving DecidableEq

/-- octoprint.rs PrinterFlags: all nine flags are required bools. -/
structure PrinterFlags where
  operational : Bool
  paused : Bool
  printing : Bool
  pausing : Bool
  cancelling : Bool
  sd_ready : Bool
  error : Bool
  ready : Bool
  closed_or_error : Bool
deriving DecidableEq

/-- octoprint.rs PrinterState: text and flags are required. -/
structure PrinterState where
  text : String
  flags : PrinterFlags
deriving DecidableEq

/-- octoprint.rs StateResponse: the /api/printer response shape. -/
structure StateResponse where
  temperature : Option TemperatureState
  sd : Option SdState
  state : Option PrinterState
deriving DecidableEq

/-- octoprint.rs JobResponse: the /api/job response shape; job and progress are required. -/
structure JobResponse where
  job : Job
  progress : Progress
deriving DecidableEq

/-- octoprint.rs OctoprintError: Network wraps a hyper error, Parse a serde_json
error; the payloads are opaque to the program so they are elided here. -/
inductive OctoprintError where
  | Network
  | Parse
deriving DecidableEq

/-! ## UI events and errors (src/ui.rs lines 13-40) -/

/-- ui.rs UiEvent: the tagged union carried on the channel. -/
inductive UiEvent where
  | JobUpdate (job : JobResponse)
  | StateUpdate (state : StateResponse)
deriving DecidableEq

/-- ui.rs UiError: Timer wraps a tokio_timer error (payload opaque). -/
inductive UiError where
  | Timer
  | Octoprint (e : OctoprintError)
deriving DecidableEq

/-! ## View state and aggregation (src/ui.rs lines 42-115) -/

/-- ui.rs UiState: the mutable view model owned by the renderer. -/
structure UiState where
  progress : ℚ
  filename : Option String
  status : Option String
  print_time : Option ℚ
  estimated_time : Option ℚ
  remaining_time : Option ℚ
  hotend_temp : Option ℚ
  hotend_target : Option ℚ
  bed_temp : Option ℚ
  bed_target : Option ℚ
deriving DecidableEq

/-- ui.rs Ui::new (lines 62-80): the initial all-empty view state. -/
def initState : UiState :=
  { progress := 0
    filename := none
    status := none
    print_time := none
    estimated_time := none
    remaining_time := none
    hotend_temp := none
    hotend_target := none
    bed_temp := none
    bed_target := none }

/-- ui.rs Ui::draw, merge phase (lines 82-115): how one received event mutates
the view state before the redraw.  Field by field transliteration of the two
match arms. -/
def applyEvent (st : UiState) (e : UiEvent) : UiState :=
  match e with
  | UiEvent.JobUpdate job =>
    { st with
      progress := job.progress.completion.getD 0
      filename := job.job.file.name
      print_time := job.progress.print_time
      estimated_time := job.job.last_print_time.or job.job.estimated_print_time
      remaining_time := job.progress.print_time_left }
  | UiEvent.StateUpdate s =>
    { st with
      status := s.state.map (fun ps => ps.text)
      hotend_temp := (s.temperature.bind (fun t => t.tool0)).map (fun t => t.actual)
      hotend_target := (s.temperature.bind (fun t => t.tool0)).map (fun t => t.target)
      bed_temp := (s.temperature.bind (fun t => t.bed)).map (fun t => t.actual)
      bed_target := (s.temperature.bind (fun t => t.bed)).map (fun t => t.target) }

/-- The aggregator loop (main.rs line 72-75, rx.for_each): fold a finite trace
of delivered events through the merge phase of Ui::draw. -/
def runEvents (st : UiState) (es : List UiEvent) : UiState :=
  es.foldl applyEvent st

/-! ## Duration formatting (src/ui.rs lines 256-310 and 345-352) -/

/-- Rust numeric cast of an f64 to an unsigned integer type: truncation toward
zero, saturating at 0 from below (saturation at the type's maximum is out of
reach for every value this program computes, except that the u16 cast keeps
its bound explicitly below). -/
def qtrunc (x : ℚ) : ℤ := if 0 ≤ x then ⌊x⌋ else ⌈x⌉

/-- Rust f64 `as u64`. -/
def rustCastU64 (x : ℚ) : ℕ := (qtrunc x).toNat

/-- Rust f64 `as u16` (saturating at 65535). -/
def rustCastU16 (x : ℚ) : ℕ := min (qtrunc x).toNat 65535

/-- Rust f64 % operator: remainder of truncated division. -/
def fmod (x y : ℚ) : ℚ := x - y * (qtrunc (x / y) : ℚ)

/-- ui.rs seconds_to_time (lines 345-352): decompose a duration in seconds into
whole hours, whole minutes, and a fractional seconds remainder. -/
def seconds_to_time (seconds : ℚ) : ℕ × ℕ × ℚ :=
  let hours := rustCastU64 (seconds / (60 * 60))
  let seconds1 := fmod seconds (60 * 60)
  let minutes := rustCastU64 (seconds1 / 60)
  let seconds2 := fmod seconds1 60
  (hours, minutes, seconds2)

/-- Rust float formatting with precision 0: round to the nearest integer,
ties to even.  (For negative ties Rust prints a signed zero; no negative value
reaches this formatter in the program.) -/
def rustRoundPrec0 (x : ℚ) : ℤ :=
  if Int.fract x < 1/2 then ⌊x⌋
  else if 1/2 < Int.fract x then ⌊x⌋ + 1
  else if 2 ∣ ⌊x⌋ then ⌊x⌋ else ⌊x⌋ + 1

/-- Rust width-2 zero padding, as in the format spec 02.0 used for print_time. -/
def padZero2 (s : String) : String := if s.length < 2 then "0" ++ s else s

/-- Rust width-2 space padding, as in the format spec 2.0 used for
estimated_time and remaining_time. -/
def padSpace2 (s : String) : String := if s.length < 2 then " " ++ s else s

/-- ui.rs Ui::draw print_time rendering (lines 256-262): hours unpadded,
minutes and seconds zero-padded to two digits, seconds rounded by the
precision-0 float formatter; absent duration renders as the placeholder. -/
def formatPrintTime (t : Option ℚ) : String :=
  match t with
  | some s =>
    match seconds_to_time s with
    | (hours, minutes, seconds) =>
      toString hours ++ ":" ++ padZero2 (toString minutes) ++ ":"
        ++ padZero2 (toString (rustRoundPrec0 seconds))
  | none => "--:--:--"

/-- ui.rs Ui::draw estimated_time rendering (lines 280-286): identical to
print_time except the width-2 fields are space-padded, not zero-padded. -/
def formatEstimatedTime (t : Option ℚ) : String :=
  match t with
  | some s =>
    match seconds_to_time s with
    | (hours, minutes, seconds) =>
      toString hours ++ ":" ++ padSpace2 (toString minutes) ++ ":"
        ++ padSpace2 (toString (rustRoundPrec0 seconds))
  | none => "--:--:--"

/-- ui.rs Ui::draw remaining_time rendering (lines 304-310): same format spec
as estimated_time. -/
def formatRemainingTime (t : Option ℚ) : String :=
  match t with
  | some s =>
    match seconds_to_time s with
    | (hours, minutes, seconds) =>
      toString hours ++ ":" ++ padSpace2 (toString minutes) ++ ":"
        ++ padSpace2 (toString (rustRoundPrec0 seconds))
  | none => "--:--:--"

/-- ui.rs Ui::draw gauge rendering (lines 328-339): the gauge is drawn only
when progress is strictly positive, with its percent argument the u16 cast of
progress.  Result: some percent when drawn, none when suppressed. -/
def gaugePercent (progress : ℚ) : Option ℕ :=
  if 0 < progress then some (rustCastU16 progress) else none

/-! ## Periodic fetchers (src/main.rs lines 48-70)

Each fetcher is the futures 0.1 pipeline
Interval -> map_err -> and_then(fetch) -> map_err(log) -> fold(tx, send).
One tick of the combined stream yields either a fetched response or an error
(timer or fetch).  The fold sends each item on the channel; on the first
stream error the fold future resolves with that error, which ends the spawned
task (futures 0.1 Stream::fold drops the accumulated state and returns the
error).  foldTicks embeds that: given the finite trace of tick outcomes it
returns the values sent before the fold ended, and whether the fold ended
early with an error. -/

/-- Outcome of one tick of the fetch stream after the and_then stage: a fetched
value, or a timer/fetch error. -/
inductive TickResult (α : Type) where
  | ok (value : α)
  | err (e : UiError)
deriving DecidableEq

/-- futures 0.1 semantics of map_err(log).fold(tx, send) over a finite trace of
tick outcomes: values before the first error are sent in order; the first
error (already logged by map_err) terminates the fold.  The Bool records
whether the fold ended early on an error. -/
def foldTicks {α : Type} : List (TickResult α) → List α × Bool
  | [] => ([], false)
  | TickResult.ok v :: rest => ((foldTicks rest).1.cons v, (foldTicks rest).2)
  | TickResult.err _ :: _ => ([], true)

/-- main.rs update_job (lines 49-57): the job fetcher task.  Its observable
effect on the channel for a finite trace of tick outcomes, plus whether the
task ended early. -/
def update_job (ticks : List (TickResult JobResponse)) : List UiEvent × Bool :=
  ((foldTicks ticks).1.map UiEvent.JobUpdate, (foldTicks ticks).2)

/-- main.rs update_state (lines 61-69): the state fetcher task, same shape. -/
def update_state (ticks : List (TickResult StateResponse)) : List UiEvent × Bool :=
  ((foldTicks ticks).1.map UiEvent.StateUpdate, (foldTicks ticks).2)

/-- The fetch-loop behavior the spec describes (log and continue), stated for
comparison with update_job: every successful tick's event is enqueued in
order, failed ticks are skipped, and the loop never terminates early. -/
def specJobLoop (ticks : List (TickResult JobResponse)) : List UiEvent × Bool :=
  (ticks.filterMap (fun t =>
    match t with
    | TickResult.ok v => some (UiEvent.JobUpdate v)
    | TickResult.err _ => none), false)

/-! ## Concrete sample values -/

/-- A FileAbridged with every optional field absent. -/
def fileNone : FileAbridged :=
  { name := none, display := none, path := none, origin := none, references := none }

/-- A JobResponse with every optional field absent. -/
def jobNone : JobResponse :=
  { job := { file := fileNone
             estimated_print_time := none
             last_print_time := none
             filament := none }
    progress := { completion := none
                  filepos := none
                  print_time := none
                  print_time_left := none } }

/-- A StateResponse with every optional field absent. -/
def stateNone : StateResponse :=
  { temperature := none, sd := none, state := none }

/-! ## JSON deserialization (src/octoprint.rs)

The response structs derive serde Deserialize with default settings:
unknown keys are ignored (no deny_unknown_fields), a field of Option type is
none when its key is absent or null, and a field of non-Option type whose key
is absent is a missing-field error.  The deserializers below spell out those
derive semantics for each struct in octoprint.rs, over a standard JSON value
type. -/

/-- A JSON value. -/
inductive Json where
  | null
  | bool (b : Bool)
  | num (q : ℚ)
  | str (s : String)
  | arr (elems : List Json)
  | obj (members : List (String × Json))

/-- Serde-level deserialization failure (the payload detail of
serde_json::Error is irrelevant to the program, which only logs it). -/
inductive ParseFailure where
  | missingField (name : String)
  | invalidType (expected : String)
deriving DecidableEq

/-- Look up a key in a JSON object's member list (first occurrence). -/
def getField (members : List (String × Json)) (key : String) : Option Json :=
  match members with
  | [] => none
  | (k, v) :: rest => if k = key then some v else getField rest key

/-- serde f64 from JSON: any number. -/
def deF64 : Json → Except ParseFailure ℚ
  | Json.num q => Except.ok q
  | _ => Except.error (ParseFailure.invalidType "f64")

/-- serde bool from JSON. -/
def deBool : Json → Except ParseFailure Bool
  | Json.bool b => Except.ok b
  | _ => Except.error (ParseFailure.invalidType "bool")

/-- serde String from JSON. -/
def deString : Json → Except ParseFailure String
  | Json.str s => Except.ok s
  | _ => Except.error (ParseFailure.invalidType "String")

/-- serde u64 from JSON: a nonnegative integer number. -/
def deU64 : Json → Except ParseFailure ℕ
  | Json.num q => if q.den = 1 ∧ 0 ≤ q.num then Except.ok q.num.toNat
                  else Except.error (ParseFailure.invalidType "u64")
  | _ => Except.error (ParseFailure.invalidType "u64")

/-- serde Option field: absent or null key gives none, otherwise the inner
deserializer runs. -/
def deOpt {α : Type} (de : Json → Except ParseFailure α) :
    Option Json → Except ParseFailure (Option α)
  | none => Except.ok none
  | some Json.null => Except.ok none
  | some j => (de j).map some

/-- serde required (non-Option) field: absent key is a missing-field error. -/
def deReq {α : Type} (de : Json → Except ParseFailure α) (name : String) :
    Option Json → Except ParseFailure α
  | none => Except.error (ParseFailure.missingField name)
  | some j => de j

/-- serde Vec from JSON: an array, each element deserialized in order. -/
def deList {α : Type} (de : Json → Except ParseFailure α) :
    Json → Except ParseFailure (List α)
  | Json.arr elems => elems.mapM de
  | _ => Except.error (ParseFailure.invalidType "sequence")

/-- serde for octoprint.rs Origin: externally tagged unit variants, renamed to
the lowercase strings. -/
def deOrigin : Json → Except ParseFailure Origin
  | Json.str "local" => Except.ok Origin.Local
  | Json.str "sdcard" => Except.ok Origin.SdCard
  | _ => Except.error (ParseFailure.invalidType "Origin")

/-- serde for octoprint.rs References: resource is required. -/
def deReferences : Json → Except ParseFailure References
  | Json.obj members => do
    let resource ← deReq deString "resource" (getField members "resource")
    let download ← deOpt deString (getField members "download")
    let model ← deOpt deString (getField members "model")
    pure { resource := resource, download := download, model := model }
  | _ => Except.error (ParseFailure.invalidType "References")

/-- serde for octoprint.rs FileAbridged: every field optional. -/
def deFileAbridged : Json → Except ParseFailure FileAbridged
  | Json.obj members => do
    let name ← deOpt deString (getField members "name")
    let display ← deOpt deString (getField members "display")
    let path ← deOpt deString (getField members "path")
    let origin ← deOpt deOrigin (getField members "origin")
    let references ← deOpt deReferences (getField members "references")
    pure { name := name, display := display, path := path, origin := origin,
           references := references }
  | _ => Except.error (ParseFailure.invalidType "FileAbridged")

/-- serde for octoprint.rs Filament: every field optional. -/
def deFilament : Json → Except ParseFailure Filament
  | Json.obj members => do
    let length ← deOpt deF64 (getField members "length")
    let volume ← deOpt deF64 (getField members "volume")
    pure { length := length, volume := volume }
  | _ => Except.error (ParseFailure.invalidType "Filament")

/-- serde for octoprint.rs Job: file is required; the two time fields use the
renamed camelCase keys. -/
def deJob : Json → Except ParseFailure Job
  | Json.obj members => do
    let file ← deReq deFileAbridged "file" (getField members "file")
    let est ← deOpt deF64 (getField members "estimatedPrintTime")
    let last ← deOpt deF64 (getField members "lastPrintTime")
    let filament ← deOpt deFilament (getField members "filament")
    pure { file := file, estimated_print_time := est, last_print_time := last,
           filament := filament }
  | _ => Except.error (ParseFailure.invalidType "Job")

/-- serde for octoprint.rs Progress: every field optional, camelCase keys for
the renamed time fields. -/
def deProgress : Json → Except ParseFailure Progress
  | Json.obj members => do
    let completion ← deOpt deF64 (getField members "completion")
    let filepos ← deOpt deF64 (getField members "filepos")
    let pt ← deOpt deF64 (getField members "printTime")
    let ptl ← deOpt deF64 (getField members "printTimeLeft")
    pure { completion := completion, filepos := filepos, print_time := pt,
           print_time_left := ptl }
  | _ => Except.error (ParseFailure.invalidType "Progress")

/-- serde for octoprint.rs JobResponse: both fields required. -/
def deJobResponse : Json → Except ParseFailure JobResponse
  | Json.obj members => do
    let job ← deReq deJob "job" (getField members "job")
    let progress ← deReq deProgress "progress" (getField members "progress")
    pure { job := job, progress := progress }
  | _ => Except.error (ParseFailure.invalidType "JobResponse")

/-- serde for octoprint.rs TemperatureData: actual and target required. -/
def deTemperatureData : Json → Except ParseFailure TemperatureData
  | Json.obj members => do
    let actual ← deReq deF64 "actual" (getField members "actual")
    let target ← deReq deF64 "target" (getField members "target")
    let offset ← deOpt deF64 (getField members "offset")
    pure { actual := actual, target := target, offset := offset }
  | _ => Except.error (ParseFailure.invalidType "TemperatureData")

/-- serde for octoprint.rs HistoricTemperatureData: time required. -/
def deHistoricTemperatureData : Json → Except ParseFailure HistoricTemperatureData
  | Json.obj members => do
    let time ← deReq deU64 "time" (getField members "time")
    let tool0 ← deOpt deTemperatureData (getField members "tool0")
    let tool1 ← deOpt deTemperatureData (getField members "tool1")
    let tool2 ← deOpt deTemperatureData (getField members "tool2")
    let bed ← deOpt deTemperatureData (getField members "bed")
    pure { time := time, tool0 := tool0, tool1 := tool1, tool2 := tool2,
           bed := bed }
  | _ => Except.error (ParseFailure.invalidType "HistoricTemperatureData")

/-- serde for octoprint.rs TemperatureState: every field optional. -/
def deTemperatureState : Json → Except ParseFailure TemperatureState
  | Json.obj members => do
    let tool0 ← deOpt deTemperatureData (getField members "tool0")
    let tool1 ← deOpt deTemperatureData (getField members "tool1")
    let tool2 ← deOpt deTemperatureData (getField members "tool2")
    let bed ← deOpt deTemperatureData (getField members "bed")
    let history ← deOpt (deList deHistoricTemperatureData) (getField members "history")
    pure { tool0 := tool0, tool1 := tool1, tool2 := tool2, bed := bed,
           history := history }
  | _ => Except.error (ParseFailure.invalidType "TemperatureState")

/-- serde for octoprint.rs SdState: ready required. -/
def deSdState : Json → Except ParseFailure SdState
  | Json.obj members => do
    let ready ← deReq deBool "ready" (getField members "ready")
    pure { ready := ready }
  | _ => Except.error (ParseFailure.invalidType "SdState")

/-- serde for octoprint.rs PrinterFlags: all nine flags required, two with
renamed camelCase keys. -/
def dePrinterFlags : Json → Except ParseFailure PrinterFlags
  | Json.obj members => do
    let operational ← deReq deBool "operational" (getField members "operational")
    let paused ← deReq deBool "paused" (getField members "paused")
    let printing ← deReq deBool "printing" (getField members "printing")
    let pausing ← deReq deBool "pausing" (getField members "pausing")
    let cancelling ← deReq deBool "cancelling" (getField members "cancelling")
    let sd_ready ← deReq deBool "sdReady" (getField members "sdReady")
    let error ← deReq deBool "error" (getField members "error")
    let ready ← deReq deBool "ready" (getField members "ready")
    let coe ← deReq deBool "closedOrError" (getField members "closedOrError")
    pure { operational := operational, paused := paused, printing := printing,
           pausing := pausing, cancelling := cancelling, sd_ready := sd_ready,
           error := error, ready := ready, closed_or_error := coe }
  | _ => Except.error (ParseFailure.invalidType "PrinterFlags")

/-- serde for octoprint.rs PrinterState: text and flags required. -/
def dePrinterState : Json → Except ParseFailure PrinterState
  | Json.obj members => do
    let text ← deReq deString "text" (getField members "text")
    let flags ← deReq dePrinterFlags "flags" (getField members "flags")
    pure { text := text, flags := flags }
  | _ => Except.error (ParseFailure.invalidType "PrinterState")

/-- serde for octoprint.rs StateResponse: every field optional. -/
def deStateResponse : Json → Except ParseFailure StateResponse
  | Json.obj members => do
    let temperature ← deOpt deTemperatureState (getField members "temperature")
    let sd ← deOpt deSdState (getField members "sd")
    let state ← deOpt dePrinterState (getField members "state")
    pure { temperature := temperature, sd := sd, state := state }
  | _ => Except.error (ParseFailure.invalidType "StateResponse")

/-! ## Field partition of the view state -/

/-- The job-sourced fields of the view state: progress, filename, print time,
estimated time, remaining time. -/
def jobPart (st : UiState) : ℚ × Option String × Option ℚ × Option ℚ × Option ℚ :=
  (st.progress, st.filename, st.print_time, st.estimated_time, st.remaining_time)

/-- The state-sourced fields of the view state: status and the four
temperature readings. -/
def statePart (st : UiState) :
    Option String × Option ℚ × Option ℚ × Option ℚ × Option ℚ :=
  (st.status, st.hotend_temp, st.hotend_target, st.bed_temp, st.bed_target)

/-- The job-sourced field values determined by one JobResponse, exactly as the
JobUpdate arm of Ui::draw computes them. -/
def jobFieldsOf (j : JobResponse) :
    ℚ × Option String × Option ℚ × Option ℚ × Option ℚ :=
  (j.progress.completion.getD 0, j.job.file.name, j.progress.print_time,
   j.job.last_print_time.or j.job.estimated_print_time, j.progress.print_time_left)

/-- The state-sourced field values determined by one StateResponse, exactly as
the StateUpdate arm of Ui::draw computes them. -/
def stateFieldsOf (s : StateResponse) :
    Option String × Option ℚ × Option ℚ × Option ℚ × Option ℚ :=
  (s.state.map (fun ps => ps.text),
   (s.temperature.bind (fun t => t.tool0)).map (fun t => t.actual),
   (s.temperature.bind (fun t => t.tool0)).map (fun t => t.target),
   (s.temperature.bind (fun t => t.bed)).map (fun t => t.actual),
   (s.temperature.bind (fun t => t.bed)).map (fun t => t.target))

/-- The payload of the last JobUpdate in a trace, if any. -/
def lastJob : List UiEvent → Option JobResponse
  | [] => none
  | e :: rest =>
    match lastJob rest with
    | some j => some j
    | none =>
      match e with
      | UiEvent.JobUpdate j => some j
      | UiEvent.StateUpdate _ => none

/-- The payload of the last StateUpdate in a trace, if any. -/
def lastState : List UiEvent → Option StateResponse
  | [] => none
  | e :: rest =>
    match lastState rest with
    | some s => some s
    | none =>
      match e with
      | UiEvent.JobUpdate _ => none
      | UiEvent.StateUpdate s => some s

lemma jobPart_applyEvent_job (st : UiState) (j : JobResponse) :
    jobPart (applyEvent st (UiEvent.JobUpdate j)) = jobFieldsOf j := rfl

lemma jobPart_applyEvent_state (st : UiState) (s : StateResponse) :
    jobPart (applyEvent st (UiEvent.StateUpdate s)) = jobPart st := rfl

lemma statePart_applyEvent_job (st : UiState) (j : JobResponse) :
    statePart (applyEvent st (UiEvent.JobUpdate j)) = statePart st := rfl

lemma statePart_applyEvent_state (st : UiState) (s : StateResponse) :
    statePart (applyEvent st (UiEvent.StateUpdate s)) = stateFieldsOf s := rfl

lemma runEvents_cons (st : UiState) (e : UiEvent) (es : List UiEvent) :
    runEvents st (e :: es) = runEvents (applyEvent st e) es := rfl

lemma jobPart_runEvents (st : UiState) (es : List UiEvent) :
    jobPart (runEvents st es) =
      ((lastJob es).map jobFieldsOf).getD (jobPart st) := by
  induction es generalizing st with
  | nil => rfl
  | cons e rest ih =>
    rw [runEvents_cons, ih]
    cases h : lastJob rest with
    | none =>
      cases e with
      | JobUpdate j => simp [lastJob, h, jobPart_applyEvent_job]
      | StateUpdate s => simp [lastJob, h, jobPart_applyEvent_state]
    | some j2 =>
      cases e with
      | JobUpdate j => simp [lastJob, h]
      | StateUpdate s => simp [lastJob, h]

lemma statePart_runEvents (st : UiState) (es : List UiEvent) :
    statePart (runEvents st es) =
      ((lastState es).map stateFieldsOf).getD (statePart st) := by
  induction es generalizing st with
  | nil => rfl
  | cons e rest ih =>
    rw [runEvents_cons, ih]
    cases h : lastState rest with
    | none =>
      cases e with
      | JobUpdate j => simp [lastState, h, statePart_applyEvent_job]
      | StateUpdate s => simp [lastState, h, statePart_applyEvent_state]
    | some s2 =>
      cases e with
      | JobUpdate j => simp [lastState, h]
      | StateUpdate s => simp [lastState, h]

/-- Whether an event is a JobUpdate carrying a strictly positive completion. -/
def positiveCompletion : UiEvent → Bool
  | UiEvent.JobUpdate j =>
    match j.progress.completion with
    | some c => decide (0 < c)
    | none => false
  | UiEvent.StateUpdate _ => false

lemma progress_nonpos_runEvents (st : UiState) (es : List UiEvent)
    (hst : st.progress ≤ 0)
    (h : es.all (fun e => !positiveCompletion e) = true) :
    (runEvents st es).progress ≤ 0 := by
  induction es generalizing st with
  | nil => exact hst
  | cons e rest ih =>
    rw [List.all_cons, Bool.and_eq_true] at h
    rw [runEvents_cons]
    refine ih _ ?_ h.2
    cases e with
    | StateUpdate s => simpa [applyEvent] using hst
    | JobUpdate j =>
      cases hc : j.progress.completion with
      | none => simp [applyEvent, hc]
      | some c =>
        have h1 := h.1
        simp [positiveCompletion, hc] at h1
        simpa [applyEvent, hc] using h1

/-! ## Evaluation of the formatters at the concrete durations of the claims

The concrete rationals stand in for the f64 values of the claims.  The
nearest double to 3661.4 is 3661.4000000000000909…, whose decomposition also
ends in a seconds component that the precision-0 formatter prints as 01, and
the nearest double to 59.999 is 59.998999999999995220…, which the formatter
also prints as 60, so the ℚ computation and the f64 computation agree on the
rendered strings for every input used below. -/

lemma stt_36614 : seconds_to_time ((36614 : ℚ)/10) = (1, 1, 7/5) := by
  norm_num [seconds_to_time, rustCastU64, qtrunc, fmod]

lemma rr_7_5 : rustRoundPrec0 ((7 : ℚ)/5) = 1 := by
  norm_num [rustRoundPrec0, Int.fract]

lemma stt_59999 : seconds_to_time ((59999 : ℚ)/1000) = (0, 0, 59999/1000) := by
  norm_num [seconds_to_time, rustCastU64, qtrunc, fmod]

lemma rr_59999 : rustRoundPrec0 ((59999 : ℚ)/1000) = 60 := by
  norm_num [rustRoundPrec0, Int.fract]

lemma formatPrintTime_36614 :
    formatPrintTime (some ((36614 : ℚ)/10)) = "1:01:01" := by
  simp only [formatPrintTime, stt_36614]
  rw [rr_7_5]
  decide

lemma formatPrintTime_59999 :
    formatPrintTime (some ((59999 : ℚ)/1000)) = "0:00:60" := by
  simp only [formatPrintTime, stt_59999]
  rw [rr_59999]
  decide

lemma formatEstimatedTime_36614 :
    formatEstimatedTime (some ((36614 : ℚ)/10)) = "1: 1: 1" := by
  simp only [formatEstimatedTime, stt_36614]
  rw [rr_7_5]
  decide

lemma formatRemainingTime_36614 :
    formatRemainingTime (some ((36614 : ℚ)/10)) = "1: 1: 1" := by
  simp only [formatRemainingTime, stt_36614]
  rw [rr_7_5]
  decide

/-! ## Claim theorems -/

/-- Claim C1 (code bug): on the trace whose first tick fails and whose second
tick succeeds, the job fetcher enqueues nothing and its fold terminates at the
first error (futures 0.1 fold returns the stream's first error), while the
log-and-continue loop the spec describes would skip the failed tick, enqueue
the second tick's event, and keep running. -/
theorem update_job_first_error_is_fatal :
    update_job [TickResult.err (UiError.Octoprint OctoprintError.Network),
                TickResult.ok jobNone] = ([], true) ∧
    specJobLoop [TickResult.err (UiError.Octoprint OctoprintError.Network),
                 TickResult.ok jobNone] = ([UiEvent.JobUpdate jobNone], false) :=
  ⟨rfl, rfl⟩

/-- Claim C2: for every finite event trace, the aggregated view state is the
field-wise last-write-wins merge — the job-sourced fields equal the values
determined by the last JobUpdate (or the initial empty values when none
occurred), and the state-sourced fields equal the values determined by the
last StateUpdate, independent of interleaving between the two kinds. -/
theorem viewmodel_last_write_wins (es : List UiEvent) :
    jobPart (runEvents initState es) =
      ((lastJob es).map jobFieldsOf).getD (jobPart initState) ∧
    statePart (runEvents initState es) =
      ((lastState es).map stateFieldsOf).getD (statePart initState) :=
  ⟨jobPart_runEvents initState es, statePart_runEvents initState es⟩

/-- Claim C3: a JobUpdate never alters the state-sourced fields (status and
the four temperature readings) and a StateUpdate never alters the job-sourced
fields (progress, filename and the three times). -/
theorem field_partition_invariant (st : UiState) (j : JobResponse)
    (s : StateResponse) :
    statePart (applyEvent st (UiEvent.JobUpdate j)) = statePart st ∧
    jobPart (applyEvent st (UiEvent.StateUpdate s)) = jobPart st :=
  ⟨rfl, rfl⟩

/-- Claim C4 counterexample: the rendered print time for 59.999 seconds is
0:00:60, not the claimed 0:00:59 — the precision-0 float formatter rounds the
seconds component to the nearest whole second instead of truncating it. -/
theorem print_time_59999_renders_60 :
    formatPrintTime (some ((59999 : ℚ)/1000)) = "0:00:60" ∧
    formatPrintTime (some ((59999 : ℚ)/1000)) ≠ "0:00:59" := by
  refine ⟨formatPrintTime_59999, ?_⟩
  rw [formatPrintTime_59999]
  decide

/-- Claim C4 as amended: the duration formatter maps 3661.4 seconds to
1:01:01 and an absent duration to the placeholder, but maps 59.999 seconds to
0:00:60 because the seconds component is rounded to the nearest whole second,
not truncated. -/
theorem duration_formatter_values :
    formatPrintTime (some ((36614 : ℚ)/10)) = "1:01:01" ∧
    formatPrintTime none = "--:--:--" ∧
    formatPrintTime (some ((59999 : ℚ)/1000)) = "0:00:60" :=
  ⟨formatPrintTime_36614, rfl, formatPrintTime_59999⟩

/-- Claim C5 counterexample: the estimated-time field renders 3661.4 seconds
as 1: 1: 1 — its minutes and seconds are space-padded to width two, not
zero-padded as claimed. -/
theorem estimated_time_not_zero_padded :
    formatEstimatedTime (some ((36614 : ℚ)/10)) = "1: 1: 1" ∧
    formatEstimatedTime (some ((36614 : ℚ)/10)) ≠ "1:01:01" := by
  refine ⟨formatEstimatedTime_36614, ?_⟩
  rw [formatEstimatedTime_36614]
  decide

/-- Claim C5 as amended: only the print-time field zero-pads its minutes and
seconds to two digits; the estimated-time and remaining-time fields pad the
same components to width two with spaces; hours are unpadded in all three. -/
theorem time_fields_padding :
    formatPrintTime (some ((36614 : ℚ)/10)) = "1:01:01" ∧
    formatEstimatedTime (some ((36614 : ℚ)/10)) = "1: 1: 1" ∧
    formatRemainingTime (some ((36614 : ℚ)/10)) = "1: 1: 1" :=
  ⟨formatPrintTime_36614, formatEstimatedTime_36614, formatRemainingTime_36614⟩

/-- Claim C6: the progress gauge is rendered if and only if the stored
progress is strictly positive; progress 0 renders no gauge, progress 0.01
renders a gauge (at the truncated percent 0), and progress 100 renders the
gauge at 100 percent. -/
theorem gauge_visibility (st : UiState) :
    ((gaugePercent st.progress).isSome ↔ 0 < st.progress) ∧
    gaugePercent 0 = none ∧
    gaugePercent ((1 : ℚ)/100) = some 0 ∧
    gaugePercent 100 = some 100 := by
  refine ⟨?_, ?_, ?_, ?_⟩
  · by_cases h : 0 < st.progress <;> simp [gaugePercent, h]
  · simp [gaugePercent]
  · norm_num [gaugePercent, rustCastU16, qtrunc]
  · norm_num [gaugePercent, rustCastU16, qtrunc]
    decide

/-- Claim C7 counterexample: a printer response whose tool0 temperature omits
the required actual field fails to deserialize with a missing-field error,
refuting that every absent field of the documented shape deserializes to an
empty value. -/
theorem printer_missing_required_field_errors :
    deStateResponse (Json.obj [("temperature",
      Json.obj [("tool0", Json.obj [("target", Json.num 0)])])]) =
      Except.error (ParseFailure.missingField "actual") := rfl

/-- Claim C7 as amended: unknown fields are ignored and absent Option-typed
fields deserialize to none, for both endpoint shapes; but a field of
non-optional type (such as TemperatureData.actual) is required, and its
absence yields a parse error. -/
theorem deserialize_optional_and_unknown_fields :
    deStateResponse (Json.obj []) = Except.ok stateNone ∧
    deStateResponse (Json.obj [("unknownKey", Json.num 3)]) =
      Except.ok stateNone ∧
    deJobResponse (Json.obj
      [("job", Json.obj [("file", Json.obj [("unknownKey", Json.null)])]),
       ("progress", Json.obj []),
       ("unknownKey", Json.bool true)]) = Except.ok jobNone ∧
    deTemperatureData (Json.obj [("target", Json.num 0)]) =
      Except.error (ParseFailure.missingField "actual") :=
  ⟨rfl, rfl, rfl, rfl⟩

/-- Claim C9: after a JobUpdate, the estimated time is the job's last print
time when that is present and the job's estimated print time otherwise, and
it is absent exactly when both are absent. -/
theorem estimated_time_fallback (st : UiState) (j : JobResponse) :
    ((applyEvent st (UiEvent.JobUpdate j)).estimated_time =
      match j.job.last_print_time with
      | some v => some v
      | none => j.job.estimated_print_time) ∧
    ((applyEvent st (UiEvent.JobUpdate j)).estimated_time = none ↔
      j.job.last_print_time = none ∧ j.job.estimated_print_time = none) := by
  constructor
  · cases h : j.job.last_print_time <;> simp [applyEvent, Option.or, h]
  · cases h : j.job.last_print_time <;> simp [applyEvent, Option.or, h]

/-- Claim C10: a JobUpdate whose completion is absent sets the stored progress
to 0, and the gauge stays suppressed on that render and on every subsequent
render as long as no later JobUpdate carries a strictly positive completion. -/
theorem gauge_suppressed_until_positive_completion
    (st : UiState) (j : JobResponse) (es : List UiEvent)
    (h1 : j.progress.completion = none)
    (h2 : es.all (fun e => !positiveCompletion e) = true) :
    (applyEvent st (UiEvent.JobUpdate j)).progress = 0 ∧
    gaugePercent ((runEvents (applyEvent st (UiEvent.JobUpdate j)) es).progress)
      = none := by
  have hp : (applyEvent st (UiEvent.JobUpdate j)).progress = 0 := by
    simp [applyEvent, h1]
  refine ⟨hp, ?_⟩
  have hle : ((runEvents (applyEvent st (UiEvent.JobUpdate j)) es).progress) ≤ 0 :=
    progress_nonpos_runEvents _ es (by rw [hp]) h2
  simp [gaugePercent, not_lt.mpr hle]

/-- Witness for the gauge suppression theorem: a concrete trace of one absent
completion JobUpdate followed by a StateUpdate and another absent-completion
JobUpdate keeps the gauge suppressed. -/
theorem gauge_suppressed_until_positive_completion_witness :
    (applyEvent initState (UiEvent.JobUpdate jobNone)).progress = 0 ∧
    gaugePercent ((runEvents (applyEvent initState (UiEvent.JobUpdate jobNone))
      [UiEvent.StateUpdate stateNone, UiEvent.JobUpdate jobNone]).progress)
      = none :=
  gauge_suppressed_until_positive_completion initState jobNone
    [UiEvent.StateUpdate stateNone, UiEvent.JobUpdate jobNone] rfl (by decide)

end OctoprintTui

